import Mathlib

/-!
Shallow embedding of the Combat Resolution Engine of galaxy-wars
(src/core/combat.py, src/core/modules.py, src/core/player.py).

Conventions of the embedding:
* Python ints are `Int`; hulls and shields may go negative exactly where the
  source lets them.
* Randomness (`random.randint`, `roll_dice`, `chance`) is threaded as an
  explicit entropy stream `List Nat`, consumed one value per call in source
  order; `randint lo hi v` always lands in `[lo, hi]` for `lo ≤ hi`.
* Player inputs (`input()` in `combat_menu`) are an explicit `List String`.
* The float multipliers of the source (`1.8` for crits, the weakness map
  values `1.1 / 0.9 / 1.2 / 1.0`) are represented exactly in tenths;
  `int(d * 1.8)` is `d * 9 / 5` and `int(d * m)` is `d * tenths / 10`.
  For the non-negative magnitudes reachable in this program (raw damage
  ≤ 68) IEEE-double evaluation of those products agrees with the exact
  rational value, so integer arithmetic is a faithful translation.
* Log lists are presentation-only and are not modelled, with one exception:
  the sentinel log entry "[RETREATED]" appended by `handle_player_action`
  is exposed as the boolean `retreated` of `ActionResult`, because claims
  about the retreat action turn on whether any caller consumes it.
-/

namespace GalaxyWars

/-- One entry of `core/modules.py` `MODULES`.  Field defaults mirror the
`dict.get` defaults used by the combat engine (`damage_type` → "kinetic",
`damage` → (5,10), `ammo_use`/`power_use` → 0, `effect` → {}).  The
display-only `desc` strings and the mining `efficiency` floats are omitted:
the combat engine never reads them. -/
structure Module where
  type : String
  damage_type : String := "kinetic"
  damage : Int × Int := (5, 10)
  ammo_use : Int := 0
  power_use : Int := 0
  effect : List (String × Int) := []
  deriving Repr, DecidableEq

/-- The module registry `MODULES` of core/modules.py. -/
def MODULES : List (String × Module) := [
  ("Pulse Laser",
    { type := "weapon", damage_type := "energy", damage := (12, 22),
      ammo_use := 0, power_use := 15 }),
  ("Mass Driver",
    { type := "weapon", damage_type := "kinetic", damage := (8, 16),
      ammo_use := 2, power_use := 5 }),
  ("Plasma Cannon",
    { type := "weapon", damage_type := "blast", damage := (16, 28),
      ammo_use := 3, power_use := 12 }),
  ("Beam Lance",
    { type := "weapon", damage_type := "energy", damage := (24, 38),
      ammo_use := 0, power_use := 20 }),
  ("Basic Mining Drill", { type := "mining", power_use := 5 }),
  ("Advanced Drill", { type := "mining", power_use := 8 }),
  ("Industrial Excavator", { type := "mining", power_use := 15 }),
  ("Cargo Pod", { type := "utility", effect := [("cargo_bonus", 25)] }),
  ("Medium Cargo Bay", { type := "utility", effect := [("cargo_bonus", 60)] }),
  ("Passenger Hold", { type := "utility", effect := [("passenger_capacity", 10)] }),
  ("Shield Booster", { type := "utility", effect := [("shield_bonus", 15)] }),
  ("Reactor Upgrade", { type := "utility", effect := [("power_bonus", 10)] }),
  ("Nanite Repair Bay", { type := "utility", effect := [("repair_rate", 5)] }),
  ("Scanner Array", { type := "special", effect := [("scan_bonus", 15)] }),
  ("Warp Stabilizer", { type := "special", effect := [("fuel_efficiency", 10)] }),
  ("Pirate Transponder", { type := "special", effect := [("pirate_reputation", 20)] })]

/-- `get_module` of core/modules.py: `MODULES.get(name, {})`.  The empty
dict (falsy, and with `.get("type") != "weapon"`) is `none` here. -/
def get_module (name : String) : Option Module :=
  MODULES.lookup name

/-- An enemy combatant record (`PIRATE_TEMPLATE` shape).  The weakness
multipliers are stored in tenths (`11` for the float `1.1`, …). -/
structure Enemy where
  name : String
  hull : Int
  armor : Int
  shields : Int
  weakness : List (String × Nat)
  damage_range : Int × Int
  accuracy : Int := 12
  deriving Repr, DecidableEq

/-- `PIRATE_TEMPLATE` of core/combat.py (weakness floats 1.1/0.9/1.2 in
tenths). -/
def PIRATE_TEMPLATE : Enemy :=
  { name := "Sholen Raider", hull := 100, armor := 98, shields := 60,
    weakness := [("kinetic", 11), ("energy", 9), ("blast", 12)],
    damage_range := (8, 18), accuracy := 12 }

/-- `ship_data` sub-dict of the player record (core/player.py
`new_player`). -/
structure ShipData where
  modules : Nat := 4
  cargo_capacity : Nat := 50
  power_grid : Int := 100
  deriving Repr, DecidableEq

/-- The fields of the persistent player dict that the combat engine and the
player manager read or write.  The remaining save-file fields (fuel, cargo,
missions, location, …) are untouched by combat and omitted. -/
structure Player where
  hull : Int
  armor : Int
  shields : Int
  credits : Int
  ammo : Int
  ship_modules : List String
  ship_data : ShipData
  deriving Repr, DecidableEq

/-- Pop one value off an entropy stream (0 if exhausted). -/
def takeRand : List Nat → Nat × List Nat
  | [] => (0, [])
  | v :: rest => (v, rest)

/-- `random.randint(lo, hi)` driven by one entropy value: for `lo ≤ hi` the
result is uniform-codable over `[lo, hi]` and always lands in that range. -/
def randint (lo hi : Int) (v : Nat) : Int :=
  lo + (v : Int) % (hi - lo + 1)

/-- `roll_dice(20)` of core/utils.py: `random.randint(1, 20)`. -/
def roll_dice (v : Nat) : Int :=
  randint 1 20 v

/-- `chance(percent)` of core/utils.py:
`random.randint(1, 100) <= max(0, min(percent, 100))`. -/
def chance (percent : Int) (v : Nat) : Bool :=
  randint 1 100 v ≤ max 0 (min percent 100)

/-- Python `int(damage * 1.8)` (the crit multiplier of core/combat.py):
exact value `9·d/5`, truncated toward zero.  For every damage magnitude
this program can produce, the IEEE-double product rounds to a value with
the same integer part, so the pure rational form is faithful. -/
def int18 (damage : Int) : Int :=
  damage * 9 / 5

/-- Shields-then-hull damage application to the enemy, as written inline in
`perform_attack` (core/combat.py lines 241-248): shields absorb first, the
remainder hits the hull *without* a clamp. -/
def damageEnemy (e : Enemy) (applied : Int) : Enemy :=
  let p :=
    if e.shields > 0 then
      let to_shield := min e.shields applied
      (e.shields - to_shield, applied - to_shield)
    else (e.shields, applied)
  if p.2 > 0 then { e with shields := p.1, hull := e.hull - p.2 }
  else { e with shields := p.1 }

/-- Shields-then-hull damage application to the player, as written inline in
`enemy_attack` (core/combat.py lines 330-337): identical absorption, but the
hull update is `max(0, hull - damage)`. -/
def damagePlayer (pl : Player) (damage : Int) : Player :=
  let p :=
    if pl.shields > 0 then
      let absorbed := min pl.shields damage
      (pl.shields - absorbed, damage - absorbed)
    else (pl.shields, damage)
  if p.2 > 0 then { pl with shields := p.1, hull := max 0 (pl.hull - p.2) }
  else { pl with shields := p.1 }

/-- State threaded through one player volley (`perform_attack` locals). -/
structure VolleyState where
  enemy : Enemy
  power_grid : Int
  ammo : Int
  rng : List Nat
  deriving Repr, DecidableEq

/-- Weakness lookup and mitigation of `perform_attack`:
`multiplier = enemy["weakness"].get(dtype, 1.0)`,
`applied = int(damage * multiplier)` (multiplier in tenths), then
shields-before-hull application to the enemy. -/
def applyVolleyDamage (st : VolleyState) (m : Module) (damage : Int) : VolleyState :=
  let mult : Nat := (st.enemy.weakness.lookup m.damage_type).getD 10
  let applied := damage * (mult : Int) / 10
  { st with enemy := damageEnemy st.enemy applied }

/-- Resource check of `perform_attack` (core/combat.py lines 223-235),
reached only on a hit or crit: if the module has a positive ammo cost,
require and deduct ammo (the power cost is then never consulted); else if
it has a positive power cost, require and deduct power; an insufficient
resource skips the shot entirely. -/
def fireResolved (st : VolleyState) (m : Module) (damage : Int) : VolleyState :=
  if m.ammo_use > 0 then
    if st.ammo < m.ammo_use then st
    else applyVolleyDamage { st with ammo := st.ammo - m.ammo_use } m damage
  else if m.power_use > 0 then
    if st.power_grid < m.power_use then st
    else applyVolleyDamage { st with power_grid := st.power_grid - m.power_use } m damage
  else applyVolleyDamage st m damage

/-- Body of the `for mod_name in modules` loop of `perform_attack`:
skip non-weapons, roll the d20, sample raw damage from the module's range,
crit on a natural 20 (`int(damage * 1.8)`), miss on ≤ 2 with no resource
consumption, otherwise resolve resources and damage. -/
def fireModule (st : VolleyState) (mod_name : String) : VolleyState :=
  match get_module mod_name with
  | none => st
  | some m =>
    if m.type = "weapon" then
      let r1 := takeRand st.rng
      let attack_roll := roll_dice r1.1
      let r2 := takeRand r1.2
      let damage := randint m.damage.1 m.damage.2 r2.1
      if attack_roll = 20 then
        fireResolved { st with rng := r2.2 } m (int18 damage)
      else if attack_roll ≤ 2 then
        { st with rng := r2.2 }
      else
        fireResolved { st with rng := r2.2 } m damage
    else st

/-- `perform_attack` of core/combat.py: fold the per-module firing step over
the installed module list. -/
def perform_attack (enemy : Enemy) (modules : List String)
    (power_grid ammo : Int) (rng : List Nat) : VolleyState :=
  modules.foldl fireModule ⟨enemy, power_grid, ammo, rng⟩

/-- `emergency_power` of core/combat.py: d20 ≥ 14 adds a random boost in
[12,30] capped at the constant 140; otherwise a random penalty in [8,25]
floored at 0 (the 20% `chance` draw only picks a log string but still
consumes entropy). -/
def emergency_power (power_grid : Int) (rng : List Nat) : Int × List Nat :=
  let r := takeRand rng
  let roll := roll_dice r.1
  if roll ≥ 14 then
    let b := takeRand r.2
    let boost := randint 12 30 b.1
    (min 140 (power_grid + boost), b.2)
  else
    let p := takeRand r.2
    let penalty := randint 8 25 p.1
    let c := takeRand p.2
    let _flavor := chance 20 c.1
    (max 0 (power_grid - penalty), c.2)

/-- `scan_enemy` of core/combat.py: rolls one d20 and only logs; the only
engine-visible effect is the consumed entropy. -/
def scan_enemy (rng : List Nat) : List Nat :=
  (takeRand rng).2

/-- `enemy_attack` of core/combat.py: one d20, miss on ≤ 3, raw damage from
the enemy's range, ×1.8 truncated on a natural 20, then shields-then-hull
application to the player (hull clamped at 0). -/
def enemy_attack (pl : Player) (enemy : Enemy) (rng : List Nat) : Player × List Nat :=
  let r := takeRand rng
  let roll := roll_dice r.1
  if roll ≤ 3 then (pl, r.2)
  else
    let d := takeRand r.2
    let damage := randint enemy.damage_range.1 enemy.damage_range.2 d.1
    let damage := if roll = 20 then int18 damage else damage
    (damagePlayer pl damage, d.2)

/-- Result of `handle_player_action` plus the in-place mutations it makes.
`retreated` mirrors the "[RETREATED]" sentinel appended to the log on a
successful retreat; it is part of the returned log only, and the caller
`engage_pirates` never inspects it. -/
structure ActionResult where
  player : Player
  enemy : Enemy
  power_grid : Int
  ammo : Int
  retreated : Bool
  rng : List Nat
  deriving Repr, DecidableEq

/-- `handle_player_action` of core/combat.py: dispatch on the menu string.
"1" fires the volley, "2" is Emergency Power, "3" is Scan, "4" attempts a
retreat (50% `chance`; both outcomes leave all combat state unchanged and
only differ in the log sentinel), anything else skips the turn. -/
def handle_player_action (pl : Player) (enemy : Enemy)
    (power_grid ammo : Int) (action : String) (rng : List Nat) : ActionResult :=
  if action = "1" then
    let st := perform_attack enemy pl.ship_modules power_grid ammo rng
    ⟨pl, st.enemy, st.power_grid, st.ammo, false, st.rng⟩
  else if action = "2" then
    let r := emergency_power power_grid rng
    ⟨pl, enemy, r.1, ammo, false, r.2⟩
  else if action = "3" then
    ⟨pl, enemy, power_grid, ammo, false, scan_enemy rng⟩
  else if action = "4" then
    let c := takeRand rng
    if chance 50 c.1 then ⟨pl, enemy, power_grid, ammo, true, c.2⟩
    else ⟨pl, enemy, power_grid, ammo, false, c.2⟩
  else ⟨pl, enemy, power_grid, ammo, false, rng⟩

/-- `ship_stats.get("speed", 5)` inside `engage_pirates`: the ship dict
built by `get_player_ship` never carries a "speed" key (its keys are those
of `ship_data`: modules, cargo_capacity, power_grid), so the default 5
always applies. -/
def shipSpeed (_s : ShipData) : Int := 5

/-- Per-module step of `get_player_ship` (core/player.py lines 135-143):
a utility module's `shield_bonus` is added to the *player's* persistent
`shields` field, its `power_bonus` to the returned ship copy's
`power_grid`; every other module or effect key is ignored. -/
def gpsStep (acc : Player × ShipData) (mod_name : String) : Player × ShipData :=
  match MODULES.lookup mod_name with
  | none => acc
  | some m =>
    if m.type = "utility" then
      ({ acc.1 with shields := acc.1.shields + (m.effect.lookup "shield_bonus").getD 0 },
       { acc.2 with power_grid := acc.2.power_grid + (m.effect.lookup "power_bonus").getD 0 })
    else acc

/-- `get_player_ship` of core/player.py: copies `ship_data`, then folds the
module-bonus step over the installed modules, mutating the player record's
`shields` along the way.  Returns the mutated player together with the
ship copy. -/
def get_player_ship (pl : Player) : Player × ShipData :=
  pl.ship_modules.foldl gpsStep (pl, pl.ship_data)

/-- Pop one player input off the injected action source (`input()` in
`combat_menu`); an exhausted source yields "" (an unrecognized action). -/
def takeInput : List String → String × List String
  | [] => ("", [])
  | a :: rest => (a, rest)

/-- The local state of the `engage_pirates` combat loop: the mutable player
and enemy dicts, the *local* variables `player_power` and `player_ammo`
(note: locals — they are never written back into the player record), the
ship stats computed once before the loop, and the two injected streams. -/
structure SessionState where
  player : Player
  enemy : Enemy
  ship_stats : ShipData
  player_power : Int
  player_ammo : Int
  actions : List String
  rng : List Nat
  deriving Repr, DecidableEq

/-- End-of-turn power regeneration of `engage_pirates` (line 101):
`min(player_power + max(3, speed // 2), power_grid_cap)`. -/
def regenPower (power speed cap : Int) : Int :=
  min (power + max 3 (speed / 2)) cap

/-- One iteration of the `while enemy.hull > 0 and player.hull > 0` loop of
`engage_pirates` (its body is executed only under that condition): player
action, enemy attack if the enemy is still alive, then — unconditionally —
power regeneration and the 5% scavenged-ammo draw.  The `retreated` flag of
the action result is dropped, exactly as the source drops the sentinel. -/
def combatTurn (st : SessionState) : SessionState :=
  let a := takeInput st.actions
  let r := handle_player_action st.player st.enemy st.player_power st.player_ammo a.1 st.rng
  let after :=
    if r.enemy.hull > 0 then
      let e := enemy_attack r.player r.enemy r.rng
      (e.1, r.enemy, e.2)
    else (r.player, r.enemy, r.rng)
  let power := regenPower r.power_grid (shipSpeed st.ship_stats) st.ship_stats.power_grid
  let c := takeRand after.2.2
  let ammo := if chance 5 c.1 then r.ammo + 1 else r.ammo
  { st with player := after.1, enemy := after.2.1, player_power := power,
            player_ammo := ammo, actions := a.2, rng := c.2 }

/-- The combat loop, fuel-bounded: returns the session state at loop exit
(`none` if the loop is still running when the fuel runs out). -/
def runCombat : Nat → SessionState → Option SessionState
  | 0, _ => none
  | fuel + 1, st =>
    if st.enemy.hull > 0 ∧ st.player.hull > 0 then runCombat fuel (combatTurn st)
    else some st

/-- Combat resolution result: `victory`, the player record as persisted by
`save_player` at session end, and the salvage reward (0 on defeat).  Note
the persisted record is exactly `st.player`: the locals `player_power` and
`player_ammo` are not copied into it by the source. -/
structure CombatOutcome where
  victory : Bool
  savedPlayer : Player
  reward : Int
  deriving Repr, DecidableEq

/-- Lines 115-131 of `engage_pirates`: on `player.hull ≤ 0` save and report
defeat; otherwise draw a salvage reward in [150, 400], add it to credits,
save, and report victory. -/
def resolveCombat (st : SessionState) : CombatOutcome :=
  if st.player.hull ≤ 0 then ⟨false, st.player, 0⟩
  else
    let v := takeRand st.rng
    let reward := randint 150 400 v.1
    ⟨true, { st.player with credits := st.player.credits + reward }, reward⟩

/-- Setup phase of `engage_pirates` (lines 58-70): copy the enemy template,
call `get_player_ship` (which mutates the player's shields), initialize the
local `player_power` from the ship's power grid and the local `player_ammo`
from the player's persistent ammo field. -/
def engageSetup (player₀ : Player) (tmpl : Enemy)
    (actions : List String) (rng : List Nat) : SessionState :=
  let enemy := tmpl
  let gps := get_player_ship player₀
  ⟨gps.1, enemy, gps.2, gps.2.power_grid, gps.1.ammo, actions, rng⟩

/-- `engage_pirates` end to end (fuel-bounded loop). -/
def engage_pirates (player₀ : Player) (tmpl : Enemy)
    (actions : List String) (rng : List Nat) (fuel : Nat) : Option CombatOutcome :=
  (runCombat fuel (engageSetup player₀ tmpl actions rng)).map resolveCombat

/-! Concrete fixtures used to evaluate the engine at specific inputs. -/

/-- A weak enemy template (as `engage_pirates` accepts any template dict):
1 hull, no shields, empty weakness map (every multiplier defaults to 1.0). -/
def droneEnemy : Enemy :=
  { name := "Target Drone", hull := 1, armor := 0, shields := 0,
    weakness := [], damage_range := (6, 14), accuracy := 12 }

/-- A player with no modules (retreat scenario). -/
def retreatPlayer : Player :=
  { hull := 100, armor := 100, shields := 0, credits := 1000, ammo := 50,
    ship_modules := [], ship_data := {} }

/-- Mid-combat session state: retreat action chosen, entropy `[0, 9, 0, 50]`
= retreat `chance(50)` draw 0 (succeeds), enemy roll 9 (d20 = 10, hit),
enemy damage draw 0 (8 points), scavenge draw 50 (no ammo). -/
def retreatSession : SessionState :=
  ⟨retreatPlayer, PIRATE_TEMPLATE, {}, 100, 50, ["4"], [0, 9, 0, 50]⟩

/-- A player whose only weapon is the ammo-costing Mass Driver. -/
def gunnerPlayer : Player :=
  { hull := 100, armor := 100, shields := 0, credits := 1000, ammo := 50,
    ship_modules := ["Mass Driver"], ship_data := {} }

/-- A player whose only weapon is the power-costing Pulse Laser. -/
def laserPlayer : Player :=
  { hull := 100, armor := 100, shields := 0, credits := 1000, ammo := 50,
    ship_modules := ["Pulse Laser"], ship_data := {} }

/-- Session for `laserPlayer` against the drone: entropy `[9, 0, 50]` =
weapon roll 9 (d20 = 10, hit), damage draw 0 (12 points), scavenge draw 50. -/
def laserSession : SessionState :=
  engageSetup laserPlayer droneEnemy ["1"] [9, 0, 50]

/-- A player with a Shield Booster installed alongside the Pulse Laser. -/
def boosterPlayer : Player :=
  { hull := 100, armor := 100, shields := 100, credits := 1000, ammo := 50,
    ship_modules := ["Shield Booster", "Pulse Laser"], ship_data := {} }

/-- A player at 5 hull and 0 shields (hull-clamp scenario). -/
def clampPlayer : Player :=
  { hull := 5, armor := 100, shields := 0, credits := 0, ammo := 0,
    ship_modules := [], ship_data := {} }

/-- The Mass Driver definition, for instantiating general lemmas. -/
def massDriverDef : Module :=
  { type := "weapon", damage_type := "kinetic", damage := (8, 16),
    ammo_use := 2, power_use := 5 }

/-- Per-module shield bonus as `get_player_ship` grants it: the
`shield_bonus` effect of an installed *utility* module, else 0. -/
def utilityShieldBonus (name : String) : Int :=
  match MODULES.lookup name with
  | some m => if m.type = "utility" then (m.effect.lookup "shield_bonus").getD 0 else 0
  | none => 0

/-- Per-module power bonus as `get_player_ship` grants it to the ship copy. -/
def utilityPowerBonus (name : String) : Int :=
  match MODULES.lookup name with
  | some m => if m.type = "utility" then (m.effect.lookup "power_bonus").getD 0 else 0
  | none => 0

/-! Theorems. -/

/-- C1: the claim says a successful Retreat terminates the session
immediately, with no enemy attack that turn and no further turns.  The code
only appends the "[RETREATED]" log sentinel; `engage_pirates` never reads
it (its own comment says "We'll return early" but it does not).  At the
concrete failing input: the retreat `chance(50)` succeeds (the sentinel is
set), yet the enemy still attacks the same turn (player hull drops from 100
to 92), and the loop does not terminate (`runCombat 1` runs out of fuel
with both hulls positive instead of exiting). -/
theorem retreat_success_does_not_end_session :
    (handle_player_action retreatPlayer PIRATE_TEMPLATE 100 50 "4" [0, 9, 0, 50]).retreated
      = true ∧
    (combatTurn retreatSession).player.hull = 92 ∧
    (combatTurn retreatSession).enemy.hull = 100 ∧
    (combatTurn retreatSession).player.hull > 0 ∧
    runCombat 1 retreatSession = none := by
  decide

/-- C2: the claim says the persisted record contains the final in-combat
power grid and ammo.  The code keeps `player_power`/`player_ammo` as loop
locals and never writes them back; `save_player` persists the player dict,
whose `ammo` field still holds its pre-combat value (and which has no power
field at all).  Concrete run: `gunnerPlayer` fires its Mass Driver once
(ammo 50 → 48 in-combat), kills the drone and wins, yet the saved record's
ammo is 50 while hull/shields/credits are the final in-combat values
(credits 1000 + reward 150). -/
theorem session_end_does_not_persist_ammo_power :
    (runCombat 2 (engageSetup gunnerPlayer droneEnemy ["1"] [9, 0, 50, 0])).map
        (fun s => (s.player_ammo, (resolveCombat s).savedPlayer.ammo,
          (resolveCombat s).savedPlayer.credits))
      = some (48, 50, 1150) ∧
    (engage_pirates gunnerPlayer droneEnemy ["1"] [9, 0, 50, 0] 2).map CombatOutcome.victory
      = some true := by
  decide

/-- C3 counterexample: the claim asserts that for *both* targets the new
hull is `hull - max(0, damage - shields)`.  For the player at 5 hull and 0
shields taking 10 damage, that formula gives -5, but `enemy_attack`'s
mitigation clamps the player's hull at 0. -/
theorem mitigation_player_clamp_cex :
    (damagePlayer clampPlayer 10).hull
      ≠ clampPlayer.hull - max 0 (10 - clampPlayer.shields) := by
  decide

/-- C3 (amended): for every damage application with effective damage d ≥ 0
against a target with non-negative shields, the new shields are
`max(0, shields - d)` for both combatants; the *enemy's* new hull is
`hull - max(0, d - shields)` (unclamped, may go negative), while the
*player's* new hull (from non-negative hull, as the combat loop guarantees)
is `max(0, hull - max(0, d - shields))` — clamped at 0. -/
theorem mitigation_model (e : Enemy) (pl : Player) (d : Int)
    (hd : 0 ≤ d) (he : 0 ≤ e.shields) (hps : 0 ≤ pl.shields) (hph : 0 ≤ pl.hull) :
    (damageEnemy e d).shields = max 0 (e.shields - d) ∧
    (damageEnemy e d).hull = e.hull - max 0 (d - e.shields) ∧
    (damagePlayer pl d).shields = max 0 (pl.shields - d) ∧
    (damagePlayer pl d).hull = max 0 (pl.hull - max 0 (d - pl.shields)) := by
  obtain ⟨en, eh, ea, es, ew, edr, eac⟩ := e
  obtain ⟨ph, pa, ps, pc, pam, pm, pdt⟩ := pl
  simp only [damageEnemy, damagePlayer] at *
  split_ifs <;> refine ⟨?_, ?_, ?_, ?_⟩ <;> simp_all <;> omega

/-- Witness for the amended C3 at concrete inputs. -/
theorem mitigation_model_witness :
    (damageEnemy PIRATE_TEMPLATE 10).shields = max 0 (PIRATE_TEMPLATE.shields - 10) ∧
    (damageEnemy PIRATE_TEMPLATE 10).hull = PIRATE_TEMPLATE.hull - max 0 (10 - PIRATE_TEMPLATE.shields) ∧
    (damagePlayer clampPlayer 10).shields = max 0 (clampPlayer.shields - 10) ∧
    (damagePlayer clampPlayer 10).hull = max 0 (clampPlayer.hull - max 0 (10 - clampPlayer.shields)) :=
  mitigation_model PIRATE_TEMPLATE clampPlayer 10 (by decide) (by decide) (by decide) (by decide)

/-- C4: a weapon-module attack roll of exactly 20 always crits — the raw
sampled damage is replaced by `int(damage * 1.8)` — for *any* weapon module
(hence regardless of module and damage type), and execution proceeds to the
resource check (`fireResolved`); a roll ≤ 2 is a miss that leaves enemy,
power grid and ammo untouched (only the two entropy draws are consumed). -/
theorem weapon_crit_and_miss (e : Enemy) (pg am : Int) (name : String) (m : Module)
    (r1 r2 : Nat) (rest : List Nat)
    (hm : get_module name = some m) (hw : m.type = "weapon") :
    (roll_dice r1 = 20 →
      fireModule ⟨e, pg, am, r1 :: r2 :: rest⟩ name
        = fireResolved ⟨e, pg, am, rest⟩ m (int18 (randint m.damage.1 m.damage.2 r2))) ∧
    (roll_dice r1 ≤ 2 →
      fireModule ⟨e, pg, am, r1 :: r2 :: rest⟩ name = ⟨e, pg, am, rest⟩) := by
  constructor
  · intro h
    simp [fireModule, hm, hw, takeRand, h]
  · intro h
    have h20 : ¬ (roll_dice r1 = 20) := by
      intro hq
      rw [hq] at h
      norm_num at h
    simp [fireModule, hm, hw, takeRand, h20, h]

/-- Witness for C4: Mass Driver with roll draws 19 (d20 = 20, crit) and 0
(d20 = 1, miss). -/
theorem weapon_crit_and_miss_witness :
    fireModule ⟨droneEnemy, 100, 50, [19, 7]⟩ "Mass Driver"
      = fireResolved ⟨droneEnemy, 100, 50, []⟩ massDriverDef
          (int18 (randint massDriverDef.damage.1 massDriverDef.damage.2 7)) ∧
    fireModule ⟨droneEnemy, 100, 50, [0, 7]⟩ "Mass Driver" = ⟨droneEnemy, 100, 50, []⟩ :=
  ⟨(weapon_crit_and_miss droneEnemy 100 50 "Mass Driver" massDriverDef 19 7 []
      (by decide) (by decide)).1 (by decide),
   (weapon_crit_and_miss droneEnemy 100 50 "Mass Driver" massDriverDef 0 7 []
      (by decide) (by decide)).2 (by decide)⟩

/-- The mitigation step never touches the resource pools. -/
theorem applyVolleyDamage_resources (st : VolleyState) (m : Module) (d : Int) :
    (applyVolleyDamage st m d).ammo = st.ammo ∧
    (applyVolleyDamage st m d).power_grid = st.power_grid :=
  ⟨rfl, rfl⟩

/-- The resource check preserves non-negativity of ammo and power. -/
theorem fireResolved_nonneg (st : VolleyState) (m : Module) (d : Int)
    (ha : 0 ≤ st.ammo) (hp : 0 ≤ st.power_grid) :
    0 ≤ (fireResolved st m d).ammo ∧ 0 ≤ (fireResolved st m d).power_grid := by
  unfold fireResolved
  split_ifs <;> (try simp [applyVolleyDamage]) <;> omega

/-- One whole per-module firing step preserves non-negativity. -/
theorem fireModule_nonneg (st : VolleyState) (name : String)
    (ha : 0 ≤ st.ammo) (hp : 0 ≤ st.power_grid) :
    0 ≤ (fireModule st name).ammo ∧ 0 ≤ (fireModule st name).power_grid := by
  unfold fireModule
  cases hg : get_module name with
  | none => exact ⟨ha, hp⟩
  | some m =>
    dsimp only
    split_ifs
    · exact fireResolved_nonneg _ m _ ha hp
    · exact ⟨ha, hp⟩
    · exact fireResolved_nonneg _ m _ ha hp
    · exact ⟨ha, hp⟩

/-- An ammo-costed shot with insufficient ammo is rejected outright. -/
theorem fireResolved_skip_ammo (st : VolleyState) (m : Module) (d : Int)
    (h : 0 < m.ammo_use) (hlt : st.ammo < m.ammo_use) :
    fireResolved st m d = st := by
  unfold fireResolved
  rw [if_pos h, if_pos hlt]

/-- A power-costed shot with insufficient power is rejected outright. -/
theorem fireResolved_skip_power (st : VolleyState) (m : Module) (d : Int)
    (h : m.ammo_use ≤ 0) (hp : 0 < m.power_use) (hlt : st.power_grid < m.power_use) :
    fireResolved st m d = st := by
  unfold fireResolved
  rw [if_neg (by omega), if_pos hp, if_pos hlt]

/-- Emergency Power keeps the power grid non-negative. -/
theorem emergency_power_nonneg (pg : Int) (rng : List Nat) (h : 0 ≤ pg) :
    0 ≤ (emergency_power pg rng).1 := by
  unfold emergency_power randint
  dsimp only
  split_ifs <;> dsimp only <;> omega

/-- The Emergency Power failure branch floors the power grid at 0. -/
theorem emergency_power_fail (pg : Int) (v p c : Nat) (rest : List Nat)
    (h : roll_dice v < 14) :
    (emergency_power pg (v :: p :: c :: rest)).1 = max 0 (pg - randint 8 25 p) := by
  have h' : ¬ (roll_dice v ≥ 14) := by omega
  simp [emergency_power, takeRand, h']

/-- The Emergency Power success branch caps at the constant 140. -/
theorem emergency_power_success (pg : Int) (v b : Nat) (rest : List Nat)
    (h : 14 ≤ roll_dice v) :
    (emergency_power pg (v :: b :: rest)).1 = min 140 (pg + randint 12 30 b) := by
  simp [emergency_power, takeRand, h]

/-- C5: ammo and power are never pushed below zero by weapon firing (the
resource check or a whole per-module step) or by the Emergency Power
penalty; an unaffordable shot is rejected with no consumption at all, and
the failure penalty is floored at 0. -/
theorem ammo_power_never_negative :
    (∀ (st : VolleyState) (m : Module) (d : Int), 0 ≤ st.ammo → 0 ≤ st.power_grid →
       0 ≤ (fireResolved st m d).ammo ∧ 0 ≤ (fireResolved st m d).power_grid) ∧
    (∀ (st : VolleyState) (name : String), 0 ≤ st.ammo → 0 ≤ st.power_grid →
       0 ≤ (fireModule st name).ammo ∧ 0 ≤ (fireModule st name).power_grid) ∧
    (∀ (st : VolleyState) (m : Module) (d : Int), 0 < m.ammo_use → st.ammo < m.ammo_use →
       fireResolved st m d = st) ∧
    (∀ (st : VolleyState) (m : Module) (d : Int), m.ammo_use ≤ 0 → 0 < m.power_use →
       st.power_grid < m.power_use → fireResolved st m d = st) ∧
    (∀ (pg : Int) (rng : List Nat), 0 ≤ pg → 0 ≤ (emergency_power pg rng).1) ∧
    (∀ (pg : Int) (v p c : Nat) (rest : List Nat), roll_dice v < 14 →
       (emergency_power pg (v :: p :: c :: rest)).1 = max 0 (pg - randint 8 25 p)) :=
  ⟨fireResolved_nonneg, fireModule_nonneg, fireResolved_skip_ammo,
   fireResolved_skip_power, emergency_power_nonneg, emergency_power_fail⟩

/-- Witness for C5: a Mass Driver shot with 0 ammo, and an Emergency Power
failure (roll draw 0 is a d20 of 1). -/
theorem ammo_power_never_negative_witness :
    (0 ≤ (fireModule ⟨droneEnemy, 100, 0, [9, 0]⟩ "Mass Driver").ammo ∧
     0 ≤ (fireModule ⟨droneEnemy, 100, 0, [9, 0]⟩ "Mass Driver").power_grid) ∧
    (emergency_power 10 [0, 30, 0]).1 = max 0 (10 - randint 8 25 30) :=
  ⟨ammo_power_never_negative.2.1 ⟨droneEnemy, 100, 0, [9, 0]⟩ "Mass Driver"
     (by decide) (by decide),
   ammo_power_never_negative.2.2.2.2.2 10 0 30 0 [] (by decide)⟩

/-- C6 counterexample: the claim says every weapon module has at most one
non-zero cost field.  Mass Driver (ammo 2, power 5) and Plasma Cannon
(ammo 3, power 12) each carry two non-zero costs. -/
theorem weapon_cost_xor_cex :
    (get_module "Mass Driver").map Module.type = some "weapon" ∧
    (get_module "Mass Driver").map Module.ammo_use = some 2 ∧
    (get_module "Mass Driver").map Module.power_use = some 5 ∧
    (get_module "Plasma Cannon").map Module.type = some "weapon" ∧
    (get_module "Plasma Cannon").map Module.ammo_use = some 3 ∧
    (get_module "Plasma Cannon").map Module.power_use = some 12 ∧
    ¬ ((2 : Int) = 0 ∨ (5 : Int) = 0) := by
  decide

/-- C6 (amended): every weapon module in the registry *except* Mass Driver
and Plasma Cannon has at most one non-zero cost field; those two have both.
The engine honors the ammo cost first whenever it is positive — then the
power cost is neither checked nor consumed — and otherwise the power
cost. -/
theorem weapon_cost_precedence :
    (∀ p ∈ MODULES, p.2.type = "weapon" →
       p.1 = "Mass Driver" ∨ p.1 = "Plasma Cannon" ∨
       p.2.ammo_use = 0 ∨ p.2.power_use = 0) ∧
    (∀ (st : VolleyState) (m : Module) (d : Int), 0 < m.ammo_use →
       (fireResolved st m d).power_grid = st.power_grid ∧
       (m.ammo_use ≤ st.ammo → (fireResolved st m d).ammo = st.ammo - m.ammo_use)) ∧
    (∀ (st : VolleyState) (m : Module) (d : Int), m.ammo_use ≤ 0 → 0 < m.power_use →
       (fireResolved st m d).ammo = st.ammo ∧
       (m.power_use ≤ st.power_grid →
         (fireResolved st m d).power_grid = st.power_grid - m.power_use)) := by
  refine ⟨by decide, ?_, ?_⟩
  · intro st m d h
    unfold fireResolved
    rw [if_pos h]
    split_ifs with hlt
    · exact ⟨rfl, fun hle => absurd hlt (by omega)⟩
    · exact ⟨rfl, fun _ => rfl⟩
  · intro st m d h hp
    unfold fireResolved
    rw [if_neg (by omega), if_pos hp]
    split_ifs with hlt
    · exact ⟨rfl, fun hle => absurd hlt (by omega)⟩
    · exact ⟨rfl, fun _ => rfl⟩

/-- Witness for the amended C6: a Mass Driver shot from 100 power / 50 ammo
consumes 2 ammo and no power. -/
theorem weapon_cost_precedence_witness :
    (fireResolved ⟨droneEnemy, 100, 50, []⟩ massDriverDef 8).power_grid = 100 ∧
    (fireResolved ⟨droneEnemy, 100, 50, []⟩ massDriverDef 8).ammo = 48 :=
  ⟨(weapon_cost_precedence.2.1 ⟨droneEnemy, 100, 50, []⟩ massDriverDef 8 (by decide)).1,
   ((weapon_cost_precedence.2.1 ⟨droneEnemy, 100, 50, []⟩ massDriverDef 8 (by decide)).2
      (by decide)).trans (by decide)⟩

/-- C7 counterexample: the claim says end-of-turn regeneration runs only if
the session remains Active.  In the concrete turn below the player's volley
drops the enemy to -11 hull (Victory is reached this turn), power after the
volley is 85 — yet the end state of the same turn holds 88 power: the
regeneration `min(85 + max(3, 5 // 2), 100)` ran anyway. -/
theorem regen_runs_in_terminal_turn_cex :
    (combatTurn laserSession).enemy.hull = -11 ∧
    (handle_player_action laserPlayer droneEnemy 100 50 "1" [9, 0, 50]).power_grid = 85 ∧
    (combatTurn laserSession).player_power = 88 := by
  decide

/-- C7 (amended): end-of-turn regeneration runs unconditionally at the end
of every executed turn — the new local power is always the regeneration
formula applied to the post-action power, and the local ammo is always the
post-action ammo or that plus the scavenged +1, independently of whether a
side's hull reached 0 or a retreat succeeded during the turn. -/
theorem regen_unconditional (st : SessionState) :
    (combatTurn st).player_power
      = regenPower (handle_player_action st.player st.enemy st.player_power st.player_ammo
          (takeInput st.actions).1 st.rng).power_grid (shipSpeed st.ship_stats)
          st.ship_stats.power_grid ∧
    ((combatTurn st).player_ammo
        = (handle_player_action st.player st.enemy st.player_power st.player_ammo
            (takeInput st.actions).1 st.rng).ammo ∨
     (combatTurn st).player_ammo
        = (handle_player_action st.player st.enemy st.player_power st.player_ammo
            (takeInput st.actions).1 st.rng).ammo + 1) := by
  refine ⟨rfl, ?_⟩
  unfold combatTurn
  dsimp only
  split_ifs
  · right; rfl
  · left; rfl
  · right; rfl
  · left; rfl

/-- The player-side mitigation clamps hull at 0. -/
theorem damagePlayer_hull_nonneg (pl : Player) (d : Int) (h : 0 ≤ pl.hull) :
    0 ≤ (damagePlayer pl d).hull := by
  obtain ⟨ph, pa, ps, pc, pam, pm, pdt⟩ := pl
  simp only [damagePlayer] at *
  split_ifs <;> simp_all

/-- C8: after any enemy attack against a player with non-negative hull, the
player's hull is still ≥ 0 (the decrement is `max(0, hull - damage)`),
whereas a player volley decrements the enemy's hull without a clamp — at
the concrete input the drone ends at -11 hull. -/
theorem player_hull_clamped_enemy_hull_unclamped :
    (∀ (pl : Player) (e : Enemy) (rng : List Nat), 0 ≤ pl.hull →
       0 ≤ (enemy_attack pl e rng).1.hull) ∧
    (perform_attack droneEnemy ["Pulse Laser"] 100 50 [9, 0]).enemy.hull = -11 := by
  refine ⟨?_, by decide⟩
  intro pl e rng h
  unfold enemy_attack
  dsimp only
  split_ifs <;> first | exact h | exact damagePlayer_hull_nonneg _ _ h

/-- Witness for C8: a concrete enemy attack leaves the player's hull ≥ 0. -/
theorem player_hull_clamped_witness :
    0 ≤ (enemy_attack clampPlayer PIRATE_TEMPLATE [9, 0]).1.hull :=
  player_hull_clamped_enemy_hull_unclamped.1 clampPlayer PIRATE_TEMPLATE [9, 0] (by decide)

/-- C9: the end-of-turn power step is `min(power + max(3, speed // 2), cap)`
with the *ship's* cap, while Emergency Power success caps at the constant
140 independent of any ship cap; consequently whenever power exceeds the
ship's cap the regeneration step strictly decreases it to that cap. -/
theorem regen_not_monotone :
    (∀ power speed cap : Int,
       regenPower power speed cap = min (power + max 3 (speed / 2)) cap) ∧
    (∀ (pg : Int) (v b : Nat) (rest : List Nat), 14 ≤ roll_dice v →
       (emergency_power pg (v :: b :: rest)).1 = min 140 (pg + randint 12 30 b)) ∧
    (∀ power speed cap : Int, cap < power →
       regenPower power speed cap = cap ∧ regenPower power speed cap < power) := by
  refine ⟨fun _ _ _ => rfl, emergency_power_success, ?_⟩
  intro power speed cap h
  unfold regenPower
  constructor <;> omega

/-- Witness for C9: Emergency Power pushed power to 140 (cap 100 ship),
and the next regeneration step clamps 140 back down to 100. -/
theorem regen_not_monotone_witness :
    regenPower 140 5 100 = 100 ∧ regenPower 140 5 100 < 140 ∧
    (emergency_power 100 [19, 28]).1 = min 140 (100 + randint 12 30 28) :=
  ⟨(regen_not_monotone.2.2 140 5 100 (by decide)).1,
   (regen_not_monotone.2.2 140 5 100 (by decide)).2,
   regen_not_monotone.2.1 100 19 28 [] (by decide)⟩

/-- `get_player_ship`'s fold adds each installed utility module's shield
bonus to the player record and its power bonus to the ship copy. -/
theorem gps_foldl : ∀ (mods : List String) (pl : Player) (s : ShipData),
    ((mods.foldl gpsStep (pl, s)).1).shields
        = pl.shields + (mods.map utilityShieldBonus).sum ∧
    ((mods.foldl gpsStep (pl, s)).2).power_grid
        = s.power_grid + (mods.map utilityPowerBonus).sum
  | [], _, _ => by simp
  | name :: rest, pl, s => by
    simp only [List.foldl_cons, List.map_cons, List.sum_cons,
      gpsStep, utilityShieldBonus, utilityPowerBonus]
    cases hg : MODULES.lookup name with
    | none =>
      simp only [hg]
      have ih := gps_foldl rest pl s
      omega
    | some m =>
      simp only [hg]
      by_cases ht : m.type = "utility"
      · simp only [ht, if_pos]
        have ih := gps_foldl rest
          { pl with shields := pl.shields + (m.effect.lookup "shield_bonus").getD 0 }
          { s with power_grid := s.power_grid + (m.effect.lookup "power_bonus").getD 0 }
        dsimp only at ih ⊢
        omega
      · simp only [ht, if_neg, if_false]
        have ih := gps_foldl rest pl s
        simp only [if_neg ht] at ih ⊢
        omega

/-- C10: reading the ship stats is not side-effect free — `get_player_ship`
adds every installed utility module's shield bonus to the player's
persistent `shields` field (and the power bonus only to the returned ship
copy); combat setup stores exactly that mutated player, so starting an
encounter with a Shield Booster installed permanently raises shields by 15
(the concrete session below starts at 100 shields, takes no enemy hit, and
persists 115). -/
theorem get_player_ship_mutates_player_shields :
    (∀ pl : Player,
       ((get_player_ship pl).1).shields
           = pl.shields + (pl.ship_modules.map utilityShieldBonus).sum ∧
       ((get_player_ship pl).2).power_grid
           = pl.ship_data.power_grid + (pl.ship_modules.map utilityPowerBonus).sum) ∧
    utilityShieldBonus "Shield Booster" = 15 ∧
    (∀ (pl : Player) (tmpl : Enemy) (acts : List String) (rng : List Nat),
       (engageSetup pl tmpl acts rng).player = (get_player_ship pl).1) ∧
    (engage_pirates boosterPlayer droneEnemy ["1"] [9, 0, 50, 0] 2).map
        (fun o => o.savedPlayer.shields) = some 115 :=
  ⟨fun pl => gps_foldl pl.ship_modules pl pl.ship_data, by decide,
   fun _ _ _ _ => rfl, by decide⟩

end GalaxyWars
